import Mathlib

/-!
Shallow embedding of the zai-vision-suite web applications
(`webapp/app.py`, the Gradio variant, and `webapp/app_streamlit.py`,
the Streamlit variant) together with proofs about the embedded code.

Modelling conventions:
* file bytes are natural numbers below 256;
* the filesystem is a parameter `fs : String → Except String (List Nat)`
  giving, for a path, either the file's bytes or the OS error text;
* the single outbound HTTP round trip that `requests.post` may perform is
  described by a `NetOutcome` parameter (its 2xx JSON body, or the failure
  the transport reports);
* a Python function that may raise returns a `Py α`: `Py.ok` for a normal
  return, `Py.exn` for a raised exception (`gr.Error`, `KeyError`, ...);
* side effects are returned explicitly: the list of file paths opened and
  the list of outbound HTTP requests issued.
-/

/-- The base64 alphabet used by Python `base64.b64encode`. -/
def b64alphabet : List Char :=
  "ABCDEFGHIJKLMNOPQRSTUVWXYZabcdefghijklmnopqrstuvwxyz0123456789+/".data

/-- Character encoding a sextet value. -/
def b64char (n : Nat) : Char := b64alphabet.getD n 'A'

/-- Position of a character in a list (first occurrence; length if absent). -/
def charIdx (c : Char) : List Char → Nat
  | [] => 0
  | d :: rest => if c = d then 0 else charIdx c rest + 1

/-- Sextet value of a base64 character (inverse of `b64char` below 64). -/
def b64inv (c : Char) : Nat := charIdx c b64alphabet

/-- The sextet stream of `base64.b64encode` (groups of 3 bytes become 4 sextets;
a trailing group of 1 or 2 bytes becomes 2 or 3 sextets). -/
def b64sextets : List Nat → List Nat
  | [] => []
  | [a] => [a / 4, a % 4 * 16]
  | [a, b] => [a / 4, a % 4 * 16 + b / 16, b % 16 * 4]
  | a :: b :: c :: rest =>
      a / 4 :: (a % 4 * 16 + b / 16) :: (b % 16 * 4 + c / 64) :: c % 64 ::
        b64sextets rest

/-- Padding appended by `base64.b64encode`. -/
def b64pad (len : Nat) : String :=
  match len % 3 with
  | 1 => "=="
  | 2 => "="
  | _ => ""

/-- Python `base64.b64encode(data).decode('utf-8')`. -/
def pyB64encode (bytes : List Nat) : String :=
  String.mk ((b64sextets bytes).map b64char) ++ b64pad bytes.length

/-- Rebuilding bytes from a sextet stream (`base64.b64decode`, data part). -/
def b64unsextets : List Nat → List Nat
  | [] => []
  | [_] => []
  | [x, y] => [x * 4 + y / 16]
  | [x, y, z] => [x * 4 + y / 16, y % 16 * 16 + z / 4]
  | x :: y :: z :: w :: rest =>
      (x * 4 + y / 16) :: (y % 16 * 16 + z / 4) :: (z % 4 * 64 + w) :: b64unsextets rest

/-- Python `base64.b64decode` of an ASCII base64 string (padding discarded,
characters mapped back to sextets, bytes rebuilt). -/
def pyB64decode (s : String) : List Nat :=
  b64unsextets ((s.data.filter (fun c => c ≠ '=')).map b64inv)


/-- Outcome of a Python function call: a normal return or a raised exception
(`gr.Error`, `KeyError`, `IndexError`, ...) carrying the exception text. -/
inductive Py (α : Type) where
  | ok (a : α)
  | exn (msg : String)
deriving Repr, DecidableEq

/-- Last occurrence of a character in a list (Python `str.rfind`). -/
def rfindIdx (c : Char) : List Char → Option Nat
  | [] => none
  | d :: rest =>
    match rfindIdx c rest with
    | some i => some (i + 1)
    | none => if d = c then some 0 else none

/-- Characters after the last slash. -/
def lastComponent (l : List Char) : List Char :=
  l.foldl (fun acc c => if c = '/' then [] else acc ++ [c]) []

/-- The final path component (model of `pathlib.Path(p).name`). -/
def pathName (p : String) : String := String.mk (lastComponent p.data)

/-- The extension of the final path component, dot included (model of
`pathlib.Path(p).suffix`: the slice of the name from the last dot, empty when
the dot is absent, leading, or final). -/
def pathSuffix (p : String) : String :=
  let name := (pathName p).data
  match rfindIdx '.' name with
  | none => ""
  | some i => if 0 < i ∧ i + 1 < name.length then String.mk (name.drop i) else ""

/-- Python `str.lower` (ASCII as used here). -/
def pyLower (s : String) : String := String.mk (s.data.map Char.toLower)

/-- Python `dict.get(k, default)` over an association-list model of a dict
literal with distinct keys. -/
def dictGet (d : List (String × String)) (k dflt : String) : String :=
  match d with
  | [] => dflt
  | (k', v) :: rest => if k = k' then v else dictGet rest k dflt

/-- The `mime_types` dict literal of `encode_image_to_base64` (webapp/app.py). -/
def mime_types : List (String × String) :=
  [(".jpg", "image/jpeg"), (".jpeg", "image/jpeg"), (".png", "image/png"),
   (".gif", "image/gif"), (".webp", "image/webp")]

/-- `encode_image_to_base64` (webapp/app.py): read the file's bytes, base64
them, pick the mime type from the lower-cased extension (default
`image/jpeg`), and build a data URL. A read failure raises
`gr.Error("Failed to read image: ...")`. Besides the result it returns the
list of file paths opened. -/
def encode_image_to_base64 (fs : String → Except String (List Nat))
    (image_path : String) : Py String × List String :=
  match fs image_path with
  | .error e => (.exn ("Failed to read image: " ++ e), [image_path])
  | .ok image_data =>
    let base64_str := pyB64encode image_data
    let ext := pyLower (pathSuffix image_path)
    let mime_type := dictGet mime_types ext "image/jpeg"
    (.ok ("data:" ++ mime_type ++ ";base64," ++ base64_str), [image_path])

/-- `encode_image` (webapp/app_streamlit.py): `None` stays `None`; otherwise
the upload is decoded by PIL and re-encoded with `img.save(buffered,
format="PNG")`, then base64d into a `data:image/png` URL. The PIL round trip
is the parameter `pilPngBytes`, mapping the uploaded asset to the bytes of
its PNG re-encoding. -/
def st_encode_image {α : Type} (pilPngBytes : α → List Nat)
    (image : Option α) : Option String :=
  match image with
  | none => none
  | some img =>
    some ("data:image/png;base64," ++ pyB64encode (pilPngBytes img))

/-- The configured base URL (`ZAI_BASE_URL` environment default in both apps). -/
def API_URL : String := "https://open.bigmodel.cn/api/paas/v4"

/-- The configured model id (`ZAI_MODEL_VISION` environment default). -/
def MODEL : String := "glm-4v"

/-- One user turn of the chat-completions payload: one inline image plus one
text instruction (content list `[{type: image_url, ...}, {type: text, ...}]`). -/
structure UserMessage where
  imageUrl : String
  text : String
deriving Repr, DecidableEq

/-- The parsed JSON body of a 2xx response, restricted to the fields the apps
read: `choices` (each choice abbreviated to its `message.content` string) and
`usage` (outer option: key `usage` present; inner option: key `total_tokens`
present). -/
structure ApiJson where
  choices : Option (List String)
  usage : Option (Option Nat)
deriving Repr, DecidableEq

/-- What the one `requests.post` round trip does, as decided by the
environment: a 2xx JSON body, a 2xx non-JSON body (`response.json()` raises),
a non-2xx status (`raise_for_status` raises), a transport failure, or an
elapsed 60-second timeout (`requests` raises instead of hanging). Each
failure carries the text `str(e)` of the raised exception. -/
inductive NetOutcome where
  | ok (body : ApiJson)
  | badJson (detail : String)
  | httpStatus (detail : String)
  | transport (detail : String)
  | timedOut (detail : String)
deriving Repr, DecidableEq

/-- One outbound HTTP request as built by `call_zhipu_api` (either variant):
`requests.post(url, headers=..., json=payload, timeout=60)`. -/
structure NetCall where
  url : String
  authorization : String
  contentType : String
  payloadModel : String
  messages : List UserMessage
  maxTokens : Nat
  temperature : String
  timeoutSeconds : Nat
deriving Repr, DecidableEq

/-- The request both variants build before posting. -/
def mkNetCall (api_key : String) (messages : List UserMessage)
    (max_tokens : Nat) : NetCall :=
  { url := API_URL ++ "/chat/completions",
    authorization := "Bearer " ++ api_key,
    contentType := "application/json",
    payloadModel := MODEL,
    messages := messages,
    maxTokens := max_tokens,
    temperature := "0.7",
    timeoutSeconds := 60 }

/-- `call_zhipu_api` (webapp/app.py): empty key returns `None` before any
request; otherwise one post is issued; any exception of the round trip is
re-raised as `gr.Error("API call failed: ...")`. The second component lists
the requests issued. -/
def call_zhipu_api (api_key : String) (net : NetOutcome)
    (messages : List UserMessage) (max_tokens : Nat) :
    Py (Option ApiJson) × List NetCall :=
  if api_key = "" then (.ok none, [])
  else
    match net with
    | .ok body => (.ok (some body), [mkNetCall api_key messages max_tokens])
    | .badJson d => (.exn ("API call failed: " ++ d), [mkNetCall api_key messages max_tokens])
    | .httpStatus d => (.exn ("API call failed: " ++ d), [mkNetCall api_key messages max_tokens])
    | .transport d => (.exn ("API call failed: " ++ d), [mkNetCall api_key messages max_tokens])
    | .timedOut d => (.exn ("API call failed: " ++ d), [mkNetCall api_key messages max_tokens])

/-- Effects of a Gradio operation: file paths opened and requests issued. -/
structure Trace where
  reads : List String
  calls : List NetCall
deriving Repr, DecidableEq

/-- Effects of a Streamlit operation: requests issued and error banners shown
via `st.error`. -/
structure StTrace where
  calls : List NetCall
  errorsShown : List String
deriving Repr, DecidableEq

/-- `call_zhipu_api` (webapp/app_streamlit.py): same request, but a failure is
shown with `st.error("API call failed: ...")` and `None` is returned instead
of raising. -/
def st_call_zhipu_api (api_key : String) (net : NetOutcome)
    (messages : List UserMessage) (max_tokens : Nat) :
    Option ApiJson × StTrace :=
  if api_key = "" then (none, ⟨[], []⟩)
  else
    match net with
    | .ok body => (some body, ⟨[mkNetCall api_key messages max_tokens], []⟩)
    | .badJson d => (none, ⟨[mkNetCall api_key messages max_tokens], ["API call failed: " ++ d]⟩)
    | .httpStatus d => (none, ⟨[mkNetCall api_key messages max_tokens], ["API call failed: " ++ d]⟩)
    | .transport d => (none, ⟨[mkNetCall api_key messages max_tokens], ["API call failed: " ++ d]⟩)
    | .timedOut d => (none, ⟨[mkNetCall api_key messages max_tokens], ["API call failed: " ++ d]⟩)

/-- Demo-mode scene text of `analyze_image_real` (webapp/app.py). -/
def demo_analyze_scene (detail : String) : String :=
  "**Demo Mode - No API Key Provided**\n\nThis is a simulated analysis. Enter your Zhipu AI API key above for real AI analysis.\n\n**What real AI would provide:**\n- Detailed scene understanding at "
    ++ detail
    ++ " detail level\n- Object detection with confidence scores\n- Color palette and mood analysis\n- Contextual information\n\n**To enable real AI:**\n1. Enter your Zhipu AI API key in the field above\n2. Upload your image again\n3. Get actual AI-powered analysis"

/-- Demo-mode objects text of `analyze_image_real` (webapp/app.py). -/
def demo_analyze_objects : String :=
  "Enter API key above for real AI analysis ‚Üí"

/-- Demo-mode text of `extract_text_real` (webapp/app.py). -/
def demo_ocr (language : String) : String :=
  "**Demo Mode - No API Key Provided**\n\nThis is simulated OCR output. Enter your Zhipu AI API key above for real text extraction.\n\n**Supported Languages:**\n"
    ++ language
    ++ " (auto-detected in real mode)\n\n**To enable real OCR:**\n1. Enter your Zhipu AI API key in the field above\n2. Upload your document again\n3. Get accurate text extraction with 100+ language support"

/-- Demo-mode results text of `vision_search_real` (webapp/app.py). -/
def demo_search_results (search_type : String) : String :=
  "**Demo Mode - No API Key Provided**\n\nEnter your Zhipu AI API key above for real vision search.\n\n**What would happen:**\n1. AI analyzes your image content\n2. Generates optimal search queries\n3. Returns relevant web results\n\n**Search Type:** "
    ++ search_type
    ++ "\n\nTo enable real search, enter your API key above!"

/-- Demo-mode response text of `vision_chat_real` (webapp/app.py). -/
def demo_chat_response (prompt : String) : String :=
  "**Demo Mode - No API Key Provided**\n\nThis is a simulated response to: \""
    ++ prompt
    ++ "\"\n\n**Enter your API key above** to get real AI responses about your images!\n\n**Vision Chat supports:**\n- Natural conversation about images\n- Follow-up questions\n- Detailed analysis on demand\n- Multi-language support"

/-- `analyze_image_real` (webapp/app.py). -/
def analyze_image_real (fs : String → Except String (List Nat))
    (net : NetOutcome) (image_path : Option String)
    (detail api_key : String) : Py (String × String) × Trace :=
  match image_path with
  | none => (.ok ("Please upload an image.", ""), ⟨[], []⟩)
  | some path =>
    match encode_image_to_base64 fs path with
    | (.exn e, reads) => (.exn ("Analysis failed: " ++ e), ⟨reads, []⟩)
    | (.ok base64_image, reads) =>
      if api_key = "" then
        (.ok (demo_analyze_scene detail, demo_analyze_objects), ⟨reads, []⟩)
      else
        let messages := [⟨base64_image,
          "Analyze this image in " ++ detail
            ++ " detail. Describe the scene, main objects, colors, mood, and any notable features."⟩]
        match call_zhipu_api api_key net messages 2048 with
        | (.exn e, calls) => (.exn ("Analysis failed: " ++ e), ⟨reads, calls⟩)
        | (.ok result, calls) =>
          match result with
          | none => (.ok (demo_analyze_scene detail, demo_analyze_objects), ⟨reads, calls⟩)
          | some body =>
            match body.choices with
            | none => (.ok (demo_analyze_scene detail, demo_analyze_objects), ⟨reads, calls⟩)
            | some [] => (.exn ("Analysis failed: list index out of range"), ⟨reads, calls⟩)
            | some (content :: _) =>
              match body.usage with
              | none => (.ok (content, ""), ⟨reads, calls⟩)
              | some none => (.exn ("Analysis failed: \x27total_tokens\x27"), ⟨reads, calls⟩)
              | some (some n) =>
                (.ok (content, "\n\n*Tokens used: " ++ toString n ++ "*"), ⟨reads, calls⟩)

/-- `extract_text_real` (webapp/app.py). -/
def extract_text_real (fs : String → Except String (List Nat))
    (net : NetOutcome) (image_path : Option String)
    (language api_key : String) : Py String × Trace :=
  match image_path with
  | none => (.ok "Please upload an image.", ⟨[], []⟩)
  | some path =>
    match encode_image_to_base64 fs path with
    | (.exn e, reads) => (.exn ("OCR failed: " ++ e), ⟨reads, []⟩)
    | (.ok base64_image, reads) =>
      if api_key = "" then
        (.ok (demo_ocr language), ⟨reads, []⟩)
      else
        let prompt :=
          "Extract all text from this image. Preserve the original formatting, line breaks, and structure. Return only the extracted text."
            ++ (if language ≠ "auto" then " The text is in " ++ language ++ "." else "")
        let messages := [⟨base64_image, prompt⟩]
        match call_zhipu_api api_key net messages 4096 with
        | (.exn e, calls) => (.exn ("OCR failed: " ++ e), ⟨reads, calls⟩)
        | (.ok result, calls) =>
          match result with
          | none => (.ok (demo_ocr language), ⟨reads, calls⟩)
          | some body =>
            match body.choices with
            | none => (.ok (demo_ocr language), ⟨reads, calls⟩)
            | some [] => (.exn ("OCR failed: list index out of range"), ⟨reads, calls⟩)
            | some (text :: _) =>
              match body.usage with
              | none => (.ok text, ⟨reads, calls⟩)
              | some none => (.exn ("OCR failed: \x27total_tokens\x27"), ⟨reads, calls⟩)
              | some (some n) =>
                (.ok (text ++ "\n\n*Tokens: " ++ toString n ++ "*"), ⟨reads, calls⟩)

/-- The `prompts` dict plus `.get(search_type, prompts['web'])` of
`vision_search_real` (webapp/app.py). -/
def vision_search_prompt (search_type : String) : String :=
  dictGet
    [("web", "Describe this image in detail. What search terms would find this on the web?"),
     ("products", "Identify any products in this image. What are they and where might someone buy them?"),
     ("similar", "Describe this image. What search terms would find similar images?")]
    search_type
    "Describe this image in detail. What search terms would find this on the web?"

/-- `vision_search_real` (webapp/app.py). -/
def vision_search_real (fs : String → Except String (List Nat))
    (net : NetOutcome) (image_path : Option String)
    (search_type api_key : String) : Py (String × String) × Trace :=
  match image_path with
  | none => (.ok ("Please upload an image.", ""), ⟨[], []⟩)
  | some path =>
    match encode_image_to_base64 fs path with
    | (.exn e, reads) => (.exn ("Search failed: " ++ e), ⟨reads, []⟩)
    | (.ok base64_image, reads) =>
      if api_key = "" then
        (.ok ("Visual search for: " ++ pathName path, demo_search_results search_type),
         ⟨reads, []⟩)
      else
        let messages := [⟨base64_image, vision_search_prompt search_type⟩]
        match call_zhipu_api api_key net messages 1024 with
        | (.exn e, calls) => (.exn ("Search failed: " ++ e), ⟨reads, calls⟩)
        | (.ok result, calls) =>
          match result with
          | none =>
            (.ok ("Visual search for: " ++ pathName path, demo_search_results search_type),
             ⟨reads, calls⟩)
          | some body =>
            match body.choices with
            | none =>
              (.ok ("Visual search for: " ++ pathName path, demo_search_results search_type),
               ⟨reads, calls⟩)
            | some [] => (.exn ("Search failed: list index out of range"), ⟨reads, calls⟩)
            | some (query :: _) =>
              match body.usage with
              | none =>
                (.ok (query, "**Search Type:** " ++ search_type ++ "\n\n" ++ query),
                 ⟨reads, calls⟩)
              | some none => (.exn ("Search failed: \x27total_tokens\x27"), ⟨reads, calls⟩)
              | some (some n) =>
                (.ok (query,
                  "**Search Type:** " ++ search_type ++ "\n\n" ++ query
                    ++ "\n*Tokens: " ++ toString n ++ "*"),
                 ⟨reads, calls⟩)

/-- `vision_chat_real` (webapp/app.py). -/
def vision_chat_real (fs : String → Except String (List Nat))
    (net : NetOutcome) (image_path : Option String)
    (prompt api_key : String) : Py (String × String) × Trace :=
  match image_path with
  | none => (.ok ("Please upload an image.", "Enter your question."), ⟨[], []⟩)
  | some path =>
    let prompt := if prompt = "" then "What do you see in this image?" else prompt
    match encode_image_to_base64 fs path with
    | (.exn e, reads) => (.exn ("Chat failed: " ++ e), ⟨reads, []⟩)
    | (.ok base64_image, reads) =>
      if api_key = "" then
        (.ok (demo_chat_response prompt, "Tokens: ~100 (demo mode)"), ⟨reads, []⟩)
      else
        let messages := [⟨base64_image, prompt⟩]
        match call_zhipu_api api_key net messages 2048 with
        | (.exn e, calls) => (.exn ("Chat failed: " ++ e), ⟨reads, calls⟩)
        | (.ok result, calls) =>
          match result with
          | none =>
            (.ok (demo_chat_response prompt, "Tokens: ~100 (demo mode)"), ⟨reads, calls⟩)
          | some body =>
            match body.choices with
            | none =>
              (.ok (demo_chat_response prompt, "Tokens: ~100 (demo mode)"), ⟨reads, calls⟩)
            | some [] => (.exn ("Chat failed: list index out of range"), ⟨reads, calls⟩)
            | some (response :: _) =>
              match body.usage with
              | none => (.ok (response, "Tokens: N/A"), ⟨reads, calls⟩)
              | some none => (.ok (response, "Tokens: N/A"), ⟨reads, calls⟩)
              | some (some n) => (.ok (response, "Tokens: " ++ toString n), ⟨reads, calls⟩)

/-- Demo-mode scene text of `analyze_image` (webapp/app_streamlit.py). -/
def st_demo_analyze (detail : String) : String :=
  "**Demo Mode - No API Key**\n\nEnter your Zhipu AI API key in the sidebar for real AI analysis.\n\n**What would be provided with an API key:**\n- Scene understanding at "
    ++ detail
    ++ " detail\n- Object detection with confidence scores\n- Color palette and mood analysis\n- Contextual information"

/-- Demo-mode text of `extract_text` (webapp/app_streamlit.py). -/
def st_demo_ocr (language : String) : String :=
  "**Demo Mode - No API Key**\n\nEnter your Zhipu AI API key in the sidebar for real OCR.\n\n**Supported Languages:** "
    ++ language
    ++ " (auto-detected with API key)\n- 100+ languages supported\n- Format preservation\n- Multi-column layout handling"

/-- Demo-mode results text of `vision_search` (webapp/app_streamlit.py). -/
def st_demo_search (search_type : String) : String :=
  "**Demo Mode - No API Key**\n\nEnter your Zhipu AI API key in the sidebar for real vision search.\n\n**Search Type:** "
    ++ search_type
    ++ "\n\n**What would happen:**\n1. AI analyzes your image content\n2. Generates optimal search queries\n3. Returns relevant web results"

/-- Demo-mode response text of `vision_chat` (webapp/app_streamlit.py). -/
def st_demo_chat (prompt : String) : String :=
  "**Demo Mode - No API Key**\n\nThis is a simulated response to: \""
    ++ prompt
    ++ "\"\n\nEnter your Zhipu AI API key in the sidebar for real AI responses!"

/-- `analyze_image` (webapp/app_streamlit.py); the image argument is the
already-encoded data URL. `result['usage']` is indexed without a presence
check, so a body with choices but no usage raises `KeyError('usage')`. -/
def st_analyze_image (net : NetOutcome)
    (image_base64 detail api_key : String) : Py (String × String) × StTrace :=
  if api_key = "" then
    (.ok (st_demo_analyze detail, "Tokens: N/A (demo mode)"), ⟨[], []⟩)
  else
    let messages := [⟨image_base64,
      "Analyze this image in " ++ detail
        ++ " detail. Describe the scene, main objects, colors, mood, and any notable features."⟩]
    match st_call_zhipu_api api_key net messages 2048 with
    | (result, tr) =>
      match result with
      | none => (.ok (st_demo_analyze detail, "Tokens: N/A (demo mode)"), tr)
      | some body =>
        match body.choices with
        | none => (.ok (st_demo_analyze detail, "Tokens: N/A (demo mode)"), tr)
        | some [] => (.exn "list index out of range", tr)
        | some (content :: _) =>
          match body.usage with
          | none => (.exn "\x27usage\x27", tr)
          | some none => (.ok (content, "Tokens: N/A"), tr)
          | some (some n) => (.ok (content, "Tokens: " ++ toString n), tr)

/-- `extract_text` (webapp/app_streamlit.py). -/
def st_extract_text (net : NetOutcome)
    (image_base64 language api_key : String) : Py String × StTrace :=
  if api_key = "" then
    (.ok (st_demo_ocr language), ⟨[], []⟩)
  else
    let prompt :=
      "Extract all text from this image. Preserve the original formatting, line breaks, and structure."
        ++ (if language ≠ "auto" then " The text is in " ++ language ++ "." else "")
    let messages := [⟨image_base64, prompt⟩]
    match st_call_zhipu_api api_key net messages 4096 with
    | (result, tr) =>
      match result with
      | none => (.ok (st_demo_ocr language), tr)
      | some body =>
        match body.choices with
        | none => (.ok (st_demo_ocr language), tr)
        | some [] => (.exn "list index out of range", tr)
        | some (text :: _) =>
          match body.usage with
          | none => (.exn "\x27usage\x27", tr)
          | some none => (.ok (text ++ "\n\n*Tokens: N/A*"), tr)
          | some (some n) => (.ok (text ++ "\n\n*Tokens: " ++ toString n ++ "*"), tr)

/-- `vision_search` (webapp/app_streamlit.py). -/
def st_vision_search (net : NetOutcome)
    (image_base64 search_type api_key : String) : Py (String × String) × StTrace :=
  if api_key = "" then
    (.ok ("Visual search query (demo mode)", st_demo_search search_type), ⟨[], []⟩)
  else
    let messages := [⟨image_base64, vision_search_prompt search_type⟩]
    match st_call_zhipu_api api_key net messages 1024 with
    | (result, tr) =>
      match result with
      | none => (.ok ("Visual search query (demo mode)", st_demo_search search_type), tr)
      | some body =>
        match body.choices with
        | none => (.ok ("Visual search query (demo mode)", st_demo_search search_type), tr)
        | some [] => (.exn "list index out of range", tr)
        | some (query :: _) =>
          match body.usage with
          | none => (.exn "\x27usage\x27", tr)
          | some none =>
            (.ok (query,
              "**Search Type:** " ++ search_type ++ "\n\n" ++ query ++ "\n\n*Tokens: N/A*"), tr)
          | some (some n) =>
            (.ok (query,
              "**Search Type:** " ++ search_type ++ "\n\n" ++ query
                ++ "\n\n*Tokens: " ++ toString n ++ "*"), tr)

/-- `vision_chat` (webapp/app_streamlit.py). -/
def st_vision_chat (net : NetOutcome)
    (image_base64 prompt api_key : String) : Py (String × String) × StTrace :=
  let prompt := if prompt = "" then "What do you see in this image?" else prompt
  if api_key = "" then
    (.ok (st_demo_chat prompt, "Tokens: N/A (demo mode)"), ⟨[], []⟩)
  else
    let messages := [⟨image_base64, prompt⟩]
    match st_call_zhipu_api api_key net messages 2048 with
    | (result, tr) =>
      match result with
      | none => (.ok (st_demo_chat prompt, "Tokens: N/A (demo mode)"), tr)
      | some body =>
        match body.choices with
        | none => (.ok (st_demo_chat prompt, "Tokens: N/A (demo mode)"), tr)
        | some [] => (.exn "list index out of range", tr)
        | some (response :: _) =>
          match body.usage with
          | none => (.exn "\x27usage\x27", tr)
          | some none => (.ok (response, "Tokens: N/A"), tr)
          | some (some n) => (.ok (response, "Tokens: " ++ toString n), tr)

/-- One frame produced by the Frame Sampler: a stable 1-based number, the
original frame index in the video, and the decoded pixel payload. -/
structure SampledFrame (α : Type) where
  number : Nat
  origIndex : Nat
  pixels : α
deriving Repr, DecidableEq

/-- Modelled from the spec: the Frame Sampler's index selection (section 4.3
of the specification; no video code exists under src/). With `T` total frames
and `R` requested frames: every index `0..T-1` when `T <= R`, else
`floor(i * T / R)` for `i` in `0..R-1`. -/
def sampleIndices (T R : Nat) : List Nat :=
  if T ≤ R then List.range T
  else (List.range R).map (fun i => i * T / R)

/-- Modelled from the spec: the Frame Sampler's `sample` (section 4.3; no
video code exists under src/). `decode i` is the decoder's result at index
`i` (`none` when the seek/decode fails, and such indices are skipped);
surviving frames keep ascending index order and are numbered from 1. -/
def sample {α : Type} (T R : Nat) (decode : Nat → Option α) :
    List (SampledFrame α) :=
  let decoded := (sampleIndices T R).filterMap
    (fun i => (decode i).map (fun p => (i, p)))
  decoded.enum.map (fun np => ⟨np.1 + 1, np.2.1, np.2.2⟩)

/-- Boolean list-prefix test. -/
def isPrefixL : List Char → List Char → Bool
  | [], _ => true
  | _ :: _, [] => false
  | a :: pa, b :: pb => a = b && isPrefixL pa pb

/-- Boolean contiguous-substring test. -/
def hasInfixL (pat : List Char) : List Char → Bool
  | [] => pat.isEmpty
  | c :: rest => isPrefixL pat (c :: rest) || hasInfixL pat rest

/-- The string contains the literal substring "Demo Mode". -/
def ContainsDemo (s : String) : Prop :=
  ∃ pre post : String, s = pre ++ "Demo Mode" ++ post

/-- First component of a pair-returning operation (exception text if raised). -/
def pyFst : Py (String × String) → String
  | .ok p => p.1
  | .exn e => e

/-- Second component of a pair-returning operation (exception text if raised). -/
def pySnd : Py (String × String) → String
  | .ok p => p.2
  | .exn e => e

/-- The returned string of a string-returning operation (exception text if
raised). -/
def pyValue : Py String → String
  | .ok s => s
  | .exn e => e

/-- The payload of a `data:` URL: everything after the first comma. -/
def dataUrlPayload (s : String) : String :=
  String.mk ((s.data.dropWhile (fun c => c ≠ ',')).drop 1)

/-- The mime type of a `data:` URL: between "data:" and the first semicolon. -/
def dataUrlMime (s : String) : String :=
  String.mk ((s.data.drop 5).takeWhile (fun c => c ≠ ';'))

/-- The mime choice exactly as claim C5 words it: `image/jpeg` for
`.jpg`/`.jpeg`, `image/png` for `.png`, `image/gif` for `.gif`,
`image/webp` for `.webp`, default `image/jpeg` otherwise. -/
def claimMime (ext : String) : String :=
  if ext = ".jpg" ∨ ext = ".jpeg" then "image/jpeg"
  else if ext = ".png" then "image/png"
  else if ext = ".gif" then "image/gif"
  else if ext = ".webp" then "image/webp"
  else "image/jpeg"

/-- A request with its Authorization header blanked (for comparing what two
requests share apart from the credential). -/
def anonymizeCall (c : NetCall) : NetCall := { c with authorization := "" }

theorem b64sextets_lt (l : List Nat) (h : ∀ b ∈ l, b < 256) :
    ∀ x ∈ b64sextets l, x < 64 := by
  induction l using b64sextets.induct with
  | case1 => intro x hx; simp [b64sextets] at hx
  | case2 a =>
    have ha := h a (by simp)
    intro x hx
    simp [b64sextets] at hx
    rcases hx with hx | hx <;> omega
  | case3 a b =>
    have ha := h a (by simp)
    have hb := h b (by simp)
    intro x hx
    simp [b64sextets] at hx
    rcases hx with hx | hx | hx <;> omega
  | case4 a b c rest ih =>
    have ha := h a (by simp)
    have hb := h b (by simp)
    have hc := h c (by simp)
    have hrest : ∀ b ∈ rest, b < 256 := fun x hx => h x (by simp [hx])
    intro x hx
    simp only [b64sextets, List.mem_cons] at hx
    rcases hx with hx | hx | hx | hx | hx
    · omega
    · omega
    · omega
    · omega
    · exact ih hrest x hx

theorem b64unsextets_b64sextets (l : List Nat) (h : ∀ b ∈ l, b < 256) :
    b64unsextets (b64sextets l) = l := by
  induction l using b64sextets.induct with
  | case1 => rfl
  | case2 a =>
    have ha := h a (by simp)
    simp [b64sextets, b64unsextets]
    omega
  | case3 a b =>
    have ha := h a (by simp)
    have hb := h b (by simp)
    simp [b64sextets, b64unsextets]
    omega
  | case4 a b c rest ih =>
    have ha := h a (by simp)
    have hb := h b (by simp)
    have hc := h c (by simp)
    have hrest : ∀ b ∈ rest, b < 256 := fun x hx => h x (by simp [hx])
    simp only [b64sextets, b64unsextets, List.cons.injEq]
    refine ⟨by omega, by omega, by omega, ih hrest⟩

theorem getD_mem_or_default (l : List Char) (n : Nat) (d : Char) :
    l.getD n d ∈ l ∨ l.getD n d = d := by
  induction l generalizing n with
  | nil => right; cases n <;> rfl
  | cons a t ih =>
    cases n with
    | zero => left; simp [List.getD]
    | succ m =>
      rcases ih m with hm | hd
      · left; simpa [List.getD] using Or.inr hm
      · right; simpa [List.getD] using hd

theorem b64char_ne_pad (n : Nat) : b64char n ≠ '=' := by
  rcases getD_mem_or_default b64alphabet n 'A' with hm | hd
  · intro hcontra
    rw [show List.getD b64alphabet n 'A' = b64char n from rfl] at hm
    rw [hcontra] at hm
    revert hm
    decide
  · rw [show List.getD b64alphabet n 'A' = b64char n from rfl] at hd
    rw [hd]
    decide

theorem b64inv_b64char : ∀ n < 64, b64inv (b64char n) = n := by decide

theorem pyB64_roundtrip (l : List Nat) (h : ∀ b ∈ l, b < 256) :
    pyB64decode (pyB64encode l) = l := by
  unfold pyB64encode pyB64decode
  rw [String.data_append, List.filter_append]
  have h2 : (b64pad l.length).data.filter (fun c => c ≠ '=') = [] := by
    unfold b64pad
    split <;> decide
  have h1 : ((b64sextets l).map b64char).filter (fun c => c ≠ '=')
      = (b64sextets l).map b64char := by
    rw [List.filter_eq_self]
    intro c hc
    rcases List.mem_map.mp hc with ⟨n, _, rfl⟩
    simpa using b64char_ne_pad n
  rw [h1, h2, List.append_nil, List.map_map]
  have h3 : ∀ x ∈ b64sextets l, (b64inv ∘ b64char) x = x := by
    intro x hx
    exact b64inv_b64char x (b64sextets_lt l h x hx)
  rw [List.map_congr_left h3, List.map_id']
  exact b64unsextets_b64sextets l h

theorem isPrefixL_correct (pat : List Char) :
    ∀ s, isPrefixL pat s = true → ∃ t, s = pat ++ t := by
  induction pat with
  | nil => intro s _; exact ⟨s, rfl⟩
  | cons a pa ih =>
    intro s h
    cases s with
    | nil => simp [isPrefixL] at h
    | cons b rest =>
      simp only [isPrefixL, Bool.and_eq_true, decide_eq_true_eq] at h
      obtain ⟨t, ht⟩ := ih rest h.2
      exact ⟨t, by rw [h.1, ht]; rfl⟩

theorem hasInfixL_correct (pat : List Char) :
    ∀ s, hasInfixL pat s = true → ∃ pre post, s = pre ++ pat ++ post := by
  intro s
  induction s with
  | nil =>
    intro h
    simp only [hasInfixL, List.isEmpty_iff] at h
    exact ⟨[], [], by simp [h]⟩
  | cons c rest ih =>
    intro h
    simp only [hasInfixL, Bool.or_eq_true] at h
    rcases h with h | h
    · obtain ⟨t, ht⟩ := isPrefixL_correct pat (c :: rest) h
      exact ⟨[], t, by simpa using ht⟩
    · obtain ⟨pre, post, hp⟩ := ih h
      exact ⟨c :: pre, post, by simp [hp]⟩

theorem containsDemo_of_hasInfix (s : String)
    (h : hasInfixL ("Demo Mode".data) s.data = true) : ContainsDemo s := by
  obtain ⟨pre, post, hp⟩ := hasInfixL_correct _ _ h
  refine ⟨String.mk pre, String.mk post, ?_⟩
  cases s with
  | mk data => exact congrArg String.mk hp

theorem containsDemo_extend (s t : String) (h : ContainsDemo s) :
    ContainsDemo (s ++ t) := by
  obtain ⟨pre, post, hp⟩ := h
  exact ⟨pre, post ++ t, by rw [hp, String.append_assoc]⟩

theorem containsDemo_analyze_scene (d : String) :
    ContainsDemo (demo_analyze_scene d) := by
  unfold demo_analyze_scene
  exact containsDemo_extend _ _ (containsDemo_extend _ _
    (containsDemo_of_hasInfix _ (by decide)))

theorem containsDemo_ocr (language : String) : ContainsDemo (demo_ocr language) := by
  unfold demo_ocr
  exact containsDemo_extend _ _ (containsDemo_extend _ _
    (containsDemo_of_hasInfix _ (by decide)))

theorem containsDemo_search_results (t : String) :
    ContainsDemo (demo_search_results t) := by
  unfold demo_search_results
  exact containsDemo_extend _ _ (containsDemo_extend _ _
    (containsDemo_of_hasInfix _ (by decide)))

theorem containsDemo_chat_response (p : String) :
    ContainsDemo (demo_chat_response p) := by
  unfold demo_chat_response
  exact containsDemo_extend _ _ (containsDemo_extend _ _
    (containsDemo_of_hasInfix _ (by decide)))

theorem containsDemo_st_analyze (d : String) : ContainsDemo (st_demo_analyze d) := by
  unfold st_demo_analyze
  exact containsDemo_extend _ _ (containsDemo_extend _ _
    (containsDemo_of_hasInfix _ (by decide)))

theorem containsDemo_st_ocr (language : String) :
    ContainsDemo (st_demo_ocr language) := by
  unfold st_demo_ocr
  exact containsDemo_extend _ _ (containsDemo_extend _ _
    (containsDemo_of_hasInfix _ (by decide)))

theorem containsDemo_st_search (t : String) : ContainsDemo (st_demo_search t) := by
  unfold st_demo_search
  exact containsDemo_extend _ _ (containsDemo_extend _ _
    (containsDemo_of_hasInfix _ (by decide)))

theorem containsDemo_st_chat (p : String) : ContainsDemo (st_demo_chat p) := by
  unfold st_demo_chat
  exact containsDemo_extend _ _ (containsDemo_extend _ _
    (containsDemo_of_hasInfix _ (by decide)))

theorem dropWhile_through (l1 l2 : List Char) (h : ∀ c ∈ l1, c ≠ ',') :
    List.dropWhile (fun c => c ≠ ',') (l1 ++ ',' :: l2) = ',' :: l2 := by
  induction l1 with
  | nil => simp [List.dropWhile]
  | cons a t ih =>
    have ha := h a (by simp)
    simp only [List.cons_append, List.dropWhile_cons, decide_eq_true_eq]
    rw [if_pos ha]
    exact ih (fun c hc => h c (by simp [hc]))

theorem dictGet_mime_mem (k : String) :
    dictGet mime_types k "image/jpeg"
      ∈ ["image/jpeg", "image/png", "image/gif", "image/webp"] := by
  by_cases h1 : k = ".jpg" <;> by_cases h2 : k = ".jpeg" <;> by_cases h3 : k = ".png"
    <;> by_cases h4 : k = ".gif" <;> by_cases h5 : k = ".webp"
    <;> simp_all [dictGet, mime_types]

theorem mime_no_comma (k : String) :
    ∀ c ∈ (dictGet mime_types k "image/jpeg").data, c ≠ ',' := by
  have h := dictGet_mime_mem k
  simp only [List.mem_cons, List.not_mem_nil, or_false] at h
  rcases h with h | h | h | h <;> rw [h] <;> decide

theorem dictGet_eq_claimMime (k : String) :
    dictGet mime_types k "image/jpeg" = claimMime k := by
  by_cases h1 : k = ".jpg" <;> by_cases h2 : k = ".jpeg" <;> by_cases h3 : k = ".png"
    <;> by_cases h4 : k = ".gif" <;> by_cases h5 : k = ".webp"
    <;> simp_all [dictGet, mime_types, claimMime]

theorem dataUrlPayload_eq (mime payload : String)
    (hm : ∀ c ∈ mime.data, c ≠ ',') :
    dataUrlPayload ("data:" ++ mime ++ ";base64," ++ payload) = payload := by
  unfold dataUrlPayload
  have hsemi : (";base64," : String).data = ";base64".data ++ [','] := by decide
  have hdata : ("data:" ++ mime ++ ";base64," ++ payload).data
      = ("data:".data ++ (mime.data ++ ";base64".data)) ++ (',' :: payload.data) := by
    rw [String.data_append, String.data_append, String.data_append, hsemi]
    simp [List.append_assoc]
  rw [hdata]
  have hpre : ∀ c ∈ "data:".data ++ (mime.data ++ ";base64".data), c ≠ ',' := by
    intro c hc
    have hd : ∀ x ∈ ("data:" : String).data, x ≠ ',' := by decide
    have hs : ∀ x ∈ (";base64" : String).data, x ≠ ',' := by decide
    rcases List.mem_append.mp hc with hc | hc
    · exact hd c hc
    · rcases List.mem_append.mp hc with hc | hc
      · exact hm c hc
      · exact hs c hc
  rw [dropWhile_through _ _ hpre]
  cases payload with
  | mk pd => rfl

/-- C3: for every readable image asset, base64-decoding the payload of the
Media Encoder's output reproduces the source asset's bytes exactly — a valid
image byte stream whose pixel content matches the source (the Gradio encoder
does not even change the container, so the round trip is the identity on the
file's bytes). -/
theorem c3_encode_roundtrip (fs : String → Except String (List Nat))
    (path : String) (bytes : List Nat) (hfs : fs path = Except.ok bytes)
    (hb : ∀ b ∈ bytes, b < 256) :
    pyB64decode (dataUrlPayload (pyValue (encode_image_to_base64 fs path).1)) = bytes := by
  simp only [encode_image_to_base64, hfs]
  simp only [pyValue]
  rw [dataUrlPayload_eq _ _ (mime_no_comma _)]
  exact pyB64_roundtrip bytes hb

/-- Witness for C3 at a concrete readable asset. -/
theorem c3_encode_roundtrip_witness :
    pyB64decode (dataUrlPayload (pyValue
      (encode_image_to_base64 (fun _ => Except.ok [137, 80, 78, 71]) "cat.png").1))
      = [137, 80, 78, 71] :=
  c3_encode_roundtrip (fun _ => Except.ok [137, 80, 78, 71]) "cat.png"
    [137, 80, 78, 71] rfl (by decide)

/-- C5: for every path whose file is readable, the Gradio encoder's output is
exactly `data:<mime>;base64,<payload>` where `<mime>` follows the claim's
case analysis on the (lower-cased) extension — `image/jpeg` for
`.jpg`/`.jpeg`, `image/png` for `.png`, `image/gif` for `.gif`, `image/webp`
for `.webp`, defaulting to `image/jpeg` — and `<payload>` is the base64
encoding of the file's bytes. -/
theorem c5_data_url_format (fs : String → Except String (List Nat))
    (path : String) (bytes : List Nat) (hfs : fs path = Except.ok bytes) :
    (encode_image_to_base64 fs path).1
      = Py.ok ("data:" ++ claimMime (pyLower (pathSuffix path))
          ++ ";base64," ++ pyB64encode bytes) := by
  simp only [encode_image_to_base64, hfs]
  rw [dictGet_eq_claimMime]

/-- Witness for C5 at a concrete upper-cased png path. -/
theorem c5_data_url_format_witness :
    (encode_image_to_base64 (fun _ => Except.ok [1, 2, 3]) "photos/cat.PNG").1
      = Py.ok "data:image/png;base64,AQID" := by
  have h := c5_data_url_format (fun _ => Except.ok [1, 2, 3]) "photos/cat.PNG" [1, 2, 3] rfl
  rw [h]
  decide

/-- C4 as stated is false for the Gradio encoder: the output mime (and
payload) depend on the input file's extension, so there is no single
consistent output image format. Concretely, the same bytes stored at
`a.gif` and at `a.png` encode to data URLs with different mime labels. -/
theorem c4_counterexample :
    ¬ ∀ (fs : String → Except String (List Nat)) (p₁ p₂ : String) (b : List Nat),
        fs p₁ = Except.ok b → fs p₂ = Except.ok b →
        dataUrlMime (pyValue (encode_image_to_base64 fs p₁).1)
          = dataUrlMime (pyValue (encode_image_to_base64 fs p₂).1) := by
  intro h
  have hx := h (fun _ => Except.ok [1]) "a.gif" "a.png" [1] rfl rfl
  revert hx
  decide

/-- C4 amended: only the Streamlit encoder normalizes to a single output
format — it always re-encodes through PIL to PNG and labels the result
`data:image/png`. The Gradio encoder does not re-encode: it passes the
original file bytes through unchanged and labels them with a mime type
inferred from the file extension (default `image/jpeg`). -/
theorem c4_amended :
    (∀ (α : Type) (pilPngBytes : α → List Nat) (img : α),
        st_encode_image pilPngBytes (some img)
          = some ("data:image/png;base64," ++ pyB64encode (pilPngBytes img)))
    ∧ (∀ (fs : String → Except String (List Nat)) (path : String) (bytes : List Nat),
        fs path = Except.ok bytes →
        (encode_image_to_base64 fs path).1
          = Py.ok ("data:" ++ dictGet mime_types (pyLower (pathSuffix path)) "image/jpeg"
              ++ ";base64," ++ pyB64encode bytes)) := by
  constructor
  · intro α f img
    rfl
  · intro fs path bytes hfs
    simp only [encode_image_to_base64, hfs]

/-- Witness for C4 amended at concrete inputs of both variants. -/
theorem c4_amended_witness :
    st_encode_image (fun _ : Nat => [1]) (some 0) = some "data:image/png;base64,AQ=="
    ∧ (encode_image_to_base64 (fun _ => Except.ok [1]) "a.gif").1
        = Py.ok "data:image/gif;base64,AQ==" := by
  constructor
  · have h := c4_amended.1 Nat (fun _ => [1]) 0
    rw [h]
    decide
  · have h := c4_amended.2 (fun _ => Except.ok [1]) "a.gif" [1] rfl
    rw [h]
    decide

/-- C1: with an empty credential, every operation of both variants (analyze,
OCR, search, chat) returns placeholder text containing the literal substring
"Demo Mode" and issues zero network calls — for the Gradio variant under the
precondition that the uploaded file is readable (it is encoded before the
credential check); the credential check short-circuits before
`call_zhipu_api` is ever reached. -/
theorem c1_demo_mode :
    (∀ (fs : String → Except String (List Nat)) (net : NetOutcome)
        (path : String) (bytes : List Nat) (detail : String),
        fs path = Except.ok bytes →
        ContainsDemo (pyFst (analyze_image_real fs net (some path) detail "").1)
        ∧ (analyze_image_real fs net (some path) detail "").2.calls = [])
    ∧ (∀ (fs : String → Except String (List Nat)) (net : NetOutcome)
        (path : String) (bytes : List Nat) (language : String),
        fs path = Except.ok bytes →
        ContainsDemo (pyValue (extract_text_real fs net (some path) language "").1)
        ∧ (extract_text_real fs net (some path) language "").2.calls = [])
    ∧ (∀ (fs : String → Except String (List Nat)) (net : NetOutcome)
        (path : String) (bytes : List Nat) (search_type : String),
        fs path = Except.ok bytes →
        ContainsDemo (pySnd (vision_search_real fs net (some path) search_type "").1)
        ∧ (vision_search_real fs net (some path) search_type "").2.calls = [])
    ∧ (∀ (fs : String → Except String (List Nat)) (net : NetOutcome)
        (path : String) (bytes : List Nat) (prompt : String),
        fs path = Except.ok bytes →
        ContainsDemo (pyFst (vision_chat_real fs net (some path) prompt "").1)
        ∧ (vision_chat_real fs net (some path) prompt "").2.calls = [])
    ∧ (∀ (net : NetOutcome) (img detail : String),
        ContainsDemo (pyFst (st_analyze_image net img detail "").1)
        ∧ (st_analyze_image net img detail "").2.calls = [])
    ∧ (∀ (net : NetOutcome) (img language : String),
        ContainsDemo (pyValue (st_extract_text net img language "").1)
        ∧ (st_extract_text net img language "").2.calls = [])
    ∧ (∀ (net : NetOutcome) (img search_type : String),
        ContainsDemo (pySnd (st_vision_search net img search_type "").1)
        ∧ (st_vision_search net img search_type "").2.calls = [])
    ∧ (∀ (net : NetOutcome) (img prompt : String),
        ContainsDemo (pyFst (st_vision_chat net img prompt "").1)
        ∧ (st_vision_chat net img prompt "").2.calls = []) := by
  refine ⟨?_, ?_, ?_, ?_, ?_, ?_, ?_, ?_⟩
  · intro fs net path bytes detail hfs
    have hred : analyze_image_real fs net (some path) detail ""
        = (.ok (demo_analyze_scene detail, demo_analyze_objects), ⟨[path], []⟩) := by
      simp [analyze_image_real, encode_image_to_base64, hfs]
    rw [hred]
    exact ⟨containsDemo_analyze_scene detail, rfl⟩
  · intro fs net path bytes language hfs
    have hred : extract_text_real fs net (some path) language ""
        = (.ok (demo_ocr language), ⟨[path], []⟩) := by
      simp [extract_text_real, encode_image_to_base64, hfs]
    rw [hred]
    exact ⟨containsDemo_ocr language, rfl⟩
  · intro fs net path bytes search_type hfs
    have hred : vision_search_real fs net (some path) search_type ""
        = (.ok ("Visual search for: " ++ pathName path, demo_search_results search_type),
           ⟨[path], []⟩) := by
      simp [vision_search_real, encode_image_to_base64, hfs]
    rw [hred]
    exact ⟨containsDemo_search_results search_type, rfl⟩
  · intro fs net path bytes prompt hfs
    have hred : vision_chat_real fs net (some path) prompt ""
        = (.ok (demo_chat_response
              (if prompt = "" then "What do you see in this image?" else prompt),
            "Tokens: ~100 (demo mode)"), ⟨[path], []⟩) := by
      simp [vision_chat_real, encode_image_to_base64, hfs]
    rw [hred]
    exact ⟨containsDemo_chat_response _, rfl⟩
  · intro net img detail
    have hred : st_analyze_image net img detail ""
        = (.ok (st_demo_analyze detail, "Tokens: N/A (demo mode)"), ⟨[], []⟩) := by
      simp [st_analyze_image]
    rw [hred]
    exact ⟨containsDemo_st_analyze detail, rfl⟩
  · intro net img language
    have hred : st_extract_text net img language ""
        = (.ok (st_demo_ocr language), ⟨[], []⟩) := by
      simp [st_extract_text]
    rw [hred]
    exact ⟨containsDemo_st_ocr language, rfl⟩
  · intro net img search_type
    have hred : st_vision_search net img search_type ""
        = (.ok ("Visual search query (demo mode)", st_demo_search search_type), ⟨[], []⟩) := by
      simp [st_vision_search]
    rw [hred]
    exact ⟨containsDemo_st_search search_type, rfl⟩
  · intro net img prompt
    have hred : st_vision_chat net img prompt ""
        = (.ok (st_demo_chat
              (if prompt = "" then "What do you see in this image?" else prompt),
            "Tokens: N/A (demo mode)"), ⟨[], []⟩) := by
      simp [st_vision_chat]
    rw [hred]
    exact ⟨containsDemo_st_chat _, rfl⟩

/-- Witness for C1 at the spec's end-to-end scenario: `cat.png` readable and
an empty credential. -/
theorem c1_demo_mode_witness :
    ContainsDemo (pyFst (analyze_image_real (fun _ => Except.ok [1, 2, 3])
        (NetOutcome.ok ⟨none, none⟩) (some "cat.png") "high" "").1)
    ∧ (analyze_image_real (fun _ => Except.ok [1, 2, 3])
        (NetOutcome.ok ⟨none, none⟩) (some "cat.png") "high" "").2.calls = [] :=
  c1_demo_mode.1 (fun _ => Except.ok [1, 2, 3]) (NetOutcome.ok ⟨none, none⟩)
    "cat.png" [1, 2, 3] "high" rfl

/-- C9: in the Gradio app, a `None` image path makes each of the four
operations return the fixed "Please upload an image." message immediately,
with no file read, no encoding and no network call, whatever the remaining
arguments are. -/
theorem c9_missing_image (fs : String → Except String (List Nat))
    (net : NetOutcome) (detail language search_type prompt api_key : String) :
    analyze_image_real fs net none detail api_key
        = (.ok ("Please upload an image.", ""), ⟨[], []⟩)
    ∧ extract_text_real fs net none language api_key
        = (.ok "Please upload an image.", ⟨[], []⟩)
    ∧ vision_search_real fs net none search_type api_key
        = (.ok ("Please upload an image.", ""), ⟨[], []⟩)
    ∧ vision_chat_real fs net none prompt api_key
        = (.ok ("Please upload an image.", "Enter your question."), ⟨[], []⟩) :=
  ⟨rfl, rfl, rfl, rfl⟩

/-- C10: an empty (falsy) chat prompt behaves identically to the prompt
"What do you see in this image?" in both variants: the default is substituted
before any request is built or demo text produced. -/
theorem c10_empty_prompt_default :
    (∀ (fs : String → Except String (List Nat)) (net : NetOutcome)
        (image_path : Option String) (api_key : String),
        vision_chat_real fs net image_path "" api_key
          = vision_chat_real fs net image_path "What do you see in this image?" api_key)
    ∧ (∀ (net : NetOutcome) (image_base64 api_key : String),
        st_vision_chat net image_base64 "" api_key
          = st_vision_chat net image_base64 "What do you see in this image?" api_key) := by
  constructor
  · intro fs net ip key
    cases ip with
    | none => rfl
    | some path => rfl
  · intro net img key
    rfl

/-- C2 as stated is false on its malformed-body part: a 2xx response whose
JSON body lacks the `choices` field is returned by `call_zhipu_api` without
any error being raised — there is no `RemoteCallError`; the caller then
silently falls back to demo text. -/
theorem c2_counterexample :
    (call_zhipu_api "key" (NetOutcome.ok ⟨none, none⟩) [] 1024).1
      = Py.ok (some ⟨none, none⟩) := rfl

/-- C2 amended: for every non-empty credential the Gradio client raises
`gr.Error` carrying the underlying detail on network failure, timeout,
non-2xx status, or a non-JSON body — always with exactly one request issued
and no retry — while a 2xx JSON body is returned as-is even when it lacks
`choices`; the Streamlit client reports the same failures once via
`st.error` and returns `None`. -/
theorem c2_amended (api_key : String) (h : api_key ≠ "") (d : String)
    (messages : List UserMessage) (max_tokens : Nat) (body : ApiJson) :
    call_zhipu_api api_key (NetOutcome.transport d) messages max_tokens
        = (Py.exn ("API call failed: " ++ d), [mkNetCall api_key messages max_tokens])
    ∧ call_zhipu_api api_key (NetOutcome.timedOut d) messages max_tokens
        = (Py.exn ("API call failed: " ++ d), [mkNetCall api_key messages max_tokens])
    ∧ call_zhipu_api api_key (NetOutcome.httpStatus d) messages max_tokens
        = (Py.exn ("API call failed: " ++ d), [mkNetCall api_key messages max_tokens])
    ∧ call_zhipu_api api_key (NetOutcome.badJson d) messages max_tokens
        = (Py.exn ("API call failed: " ++ d), [mkNetCall api_key messages max_tokens])
    ∧ call_zhipu_api api_key (NetOutcome.ok body) messages max_tokens
        = (Py.ok (some body), [mkNetCall api_key messages max_tokens])
    ∧ st_call_zhipu_api api_key (NetOutcome.transport d) messages max_tokens
        = (none, ⟨[mkNetCall api_key messages max_tokens], ["API call failed: " ++ d]⟩)
    ∧ st_call_zhipu_api api_key (NetOutcome.ok body) messages max_tokens
        = (some body, ⟨[mkNetCall api_key messages max_tokens], []⟩) := by
  simp [call_zhipu_api, st_call_zhipu_api, h]

/-- Witness for C2 amended at a concrete transport failure. -/
theorem c2_amended_witness :
    call_zhipu_api "k" (NetOutcome.transport "boom") [] 7
      = (Py.exn "API call failed: boom", [mkNetCall "k" [] 7]) :=
  (c2_amended "k" (by decide) "boom" [] 7 ⟨none, none⟩).1

/-- C7: both clients stamp every outbound request with the fixed 60-second
timeout, and an elapsed timeout surfaces as a raised (Gradio) or reported
(Streamlit) failure carrying the exception detail, not a hang. -/
theorem c7_timeout_policy :
    (∀ (api_key : String) (net : NetOutcome) (messages : List UserMessage)
        (max_tokens : Nat),
        ∀ c ∈ (call_zhipu_api api_key net messages max_tokens).2,
          c.timeoutSeconds = 60)
    ∧ (∀ (api_key : String) (net : NetOutcome) (messages : List UserMessage)
        (max_tokens : Nat),
        ∀ c ∈ (st_call_zhipu_api api_key net messages max_tokens).2.calls,
          c.timeoutSeconds = 60)
    ∧ (∀ (api_key d : String) (messages : List UserMessage) (max_tokens : Nat),
        api_key ≠ "" →
        (call_zhipu_api api_key (NetOutcome.timedOut d) messages max_tokens).1
          = Py.exn ("API call failed: " ++ d))
    ∧ (∀ (api_key d : String) (messages : List UserMessage) (max_tokens : Nat),
        api_key ≠ "" →
        st_call_zhipu_api api_key (NetOutcome.timedOut d) messages max_tokens
          = (none, ⟨[mkNetCall api_key messages max_tokens],
              ["API call failed: " ++ d]⟩)) := by
  refine ⟨?_, ?_, ?_, ?_⟩
  · intro key net msgs mt c hc
    unfold call_zhipu_api at hc
    by_cases hk : key = ""
    · rw [if_pos hk] at hc
      simp at hc
    · rw [if_neg hk] at hc
      cases net <;> simp_all [mkNetCall]
  · intro key net msgs mt c hc
    unfold st_call_zhipu_api at hc
    by_cases hk : key = ""
    · rw [if_pos hk] at hc
      simp at hc
    · rw [if_neg hk] at hc
      cases net <;> simp_all [mkNetCall]
  · intro key d msgs mt h
    simp [call_zhipu_api, h]
  · intro key d msgs mt h
    simp [st_call_zhipu_api, h]

/-- Witness for C7 at a concrete request and a concrete elapsed timeout. -/
theorem c7_timeout_policy_witness :
    (mkNetCall "k" [] 5).timeoutSeconds = 60
    ∧ (call_zhipu_api "k" (NetOutcome.timedOut "timed out") [] 5).1
        = Py.exn "API call failed: timed out" :=
  ⟨c7_timeout_policy.1 "k" (NetOutcome.timedOut "timed out") [] 5
      (mkNetCall "k" [] 5) (by decide),
   c7_timeout_policy.2.2.1 "k" "timed out" [] 5 (by decide)⟩

/-- C8: the credential's only sink is the Authorization header. For any two
non-empty credentials and the same environment outcome, both clients return
identical results and show identical error text, and the requests they issue
agree on everything except the Authorization header, which is exactly
`Bearer <credential>`; the clients have no other effect (no log, no
storage) in which the credential could appear. -/
theorem c8_credential_isolation (k1 k2 : String) (h1 : k1 ≠ "") (h2 : k2 ≠ "")
    (net : NetOutcome) (messages : List UserMessage) (max_tokens : Nat) :
    (call_zhipu_api k1 net messages max_tokens).1
        = (call_zhipu_api k2 net messages max_tokens).1
    ∧ (call_zhipu_api k1 net messages max_tokens).2.map anonymizeCall
        = (call_zhipu_api k2 net messages max_tokens).2.map anonymizeCall
    ∧ (∀ c ∈ (call_zhipu_api k1 net messages max_tokens).2,
        c.authorization = "Bearer " ++ k1)
    ∧ (st_call_zhipu_api k1 net messages max_tokens).1
        = (st_call_zhipu_api k2 net messages max_tokens).1
    ∧ (st_call_zhipu_api k1 net messages max_tokens).2.errorsShown
        = (st_call_zhipu_api k2 net messages max_tokens).2.errorsShown
    ∧ (st_call_zhipu_api k1 net messages max_tokens).2.calls.map anonymizeCall
        = (st_call_zhipu_api k2 net messages max_tokens).2.calls.map anonymizeCall
    ∧ (∀ c ∈ (st_call_zhipu_api k1 net messages max_tokens).2.calls,
        c.authorization = "Bearer " ++ k1) := by
  cases net <;> simp [call_zhipu_api, st_call_zhipu_api, h1, h2, mkNetCall, anonymizeCall]

/-- Witness for C8 at two concrete credentials and a transport failure. -/
theorem c8_credential_isolation_witness :
    (call_zhipu_api "k1" (NetOutcome.transport "boom") [] 1).1
      = (call_zhipu_api "k2" (NetOutcome.transport "boom") [] 1).1 :=
  (c8_credential_isolation "k1" "k2" (by decide) (by decide)
    (NetOutcome.transport "boom") [] 1).1

theorem filterMap_tag {β : Type} (f : Nat → Option (Nat × β)) :
    ∀ l : List Nat, (∀ i ∈ l, ∃ p, f i = some (i, p)) →
      (l.filterMap f).map Prod.fst = l := by
  intro l
  induction l with
  | nil => intro _; rfl
  | cons a t ih =>
    intro h
    obtain ⟨p, hp⟩ := h a (by simp)
    simp only [List.filterMap_cons, hp, List.map_cons, List.cons.injEq]
    exact ⟨trivial, ih (fun i hi => h i (by simp [hi]))⟩

/-- C6 (spec-modelled): whenever `T <= R` and the decoder succeeds on every
index, `sample` returns exactly `T` frames, numbered 1..T, whose original
indices are 0..T-1 in ascending order — every frame of the video is
selected. -/
theorem c6_sample_no_subsampling {α : Type} (T R : Nat) (decode : Nat → Option α)
    (hTR : T ≤ R) (hdec : ∀ i < T, (decode i).isSome) :
    (sample T R decode).length = T
    ∧ (sample T R decode).map SampledFrame.number = List.range' 1 T
    ∧ (sample T R decode).map SampledFrame.origIndex = List.range T := by
  have hidx : sampleIndices T R = List.range T := by
    unfold sampleIndices
    rw [if_pos hTR]
  have hfm : ∀ i ∈ List.range T,
      ∃ p, ((decode i).map (fun p => (i, p))) = some (i, p) := by
    intro i hi
    rcases Option.isSome_iff_exists.mp (hdec i (List.mem_range.mp hi)) with ⟨p, hp⟩
    exact ⟨p, by simp [hp]⟩
  have hfst : ((List.range T).filterMap
        (fun i => (decode i).map (fun p => (i, p)))).map Prod.fst = List.range T :=
    filterMap_tag _ (List.range T) hfm
  have hlen : ((List.range T).filterMap
        (fun i => (decode i).map (fun p => (i, p)))).length = T := by
    have hc := congrArg List.length hfst
    simpa using hc
  simp only [sample, hidx]
  refine ⟨?_, ?_, ?_⟩
  · simp [hlen]
  · rw [List.map_map]
    rw [show (SampledFrame.number ∘ fun np : Nat × (Nat × α) =>
        (⟨np.1 + 1, np.2.1, np.2.2⟩ : SampledFrame α)) = fun np => np.1 + 1 from rfl]
    rw [show (fun np : Nat × (Nat × α) => np.1 + 1)
        = ((fun n => n + 1) ∘ (Prod.fst : Nat × (Nat × α) → Nat)) from rfl]
    rw [← List.map_map, List.enum_map_fst, hlen, List.range'_eq_map_range]
    exact List.map_congr_left (fun a _ => Nat.add_comm a 1)
  · rw [List.map_map]
    rw [show (SampledFrame.origIndex ∘ fun np : Nat × (Nat × α) =>
        (⟨np.1 + 1, np.2.1, np.2.2⟩ : SampledFrame α)) = fun np => np.2.1 from rfl]
    rw [show (fun np : Nat × (Nat × α) => np.2.1)
        = ((Prod.fst : Nat × α → Nat) ∘ (Prod.snd : Nat × (Nat × α) → Nat × α)) from rfl]
    rw [← List.map_map, List.enum_map_snd]
    exact hfst

/-- Witness for C6 at `T = 3`, `R = 5` with an always-succeeding decoder. -/
theorem c6_sample_no_subsampling_witness :
    (sample 3 5 (fun i => some i)).length = 3
    ∧ (sample 3 5 (fun i => some i)).map SampledFrame.number = List.range' 1 3
    ∧ (sample 3 5 (fun i => some i)).map SampledFrame.origIndex = List.range 3 :=
  c6_sample_no_subsampling 3 5 (fun i => some i) (by decide) (fun _ _ => rfl)
